import Mathlib

/-!
Shallow embedding of the Ondrix escrow Solana program
(src/ondrix-escrow-solana/src/lib.rs) and proofs of the spec claims.

Machine integers are modelled as `Nat` (u64/u32) and `Int` (i64/i128); the
Rust release profile compiles plain `+`, `-` on integers to wrapping
arithmetic, so those spots are modelled with explicit `% 2^64` (`u64_add`,
`u64_sub`) and two's-complement wrapping (`i64_add`, `i64_sub`), while the
`checked_*` helpers of the source are modelled with explicit range tests.
Account plumbing (PDA derivation, SPL token CPIs, rent, borsh) is abstracted
into boolean/`Option` fields of per-instruction environment records, keeping
the order of every check exactly as in the source; external CPI failures
abort the whole transaction with no state change (host atomicity), so the
model's `Except.error` branches cover them.
-/

namespace OndrixEscrow

/-- Keys (Solana `Pubkey`, 32 bytes) are modelled as byte lists. -/
abbrev Pubkey := List Nat

/-- 2^64, the modulus of Rust `u64` arithmetic. -/
def U64_MOD : Nat := 2 ^ 64

/-- Wrapping `u64` addition, the meaning of `+` on `u64` in release builds. -/
def u64_add (a b : Nat) : Nat := (a + b) % U64_MOD

/-- Wrapping `u64` subtraction (inputs assumed `< 2^64`, as all u64 values are). -/
def u64_sub (a b : Nat) : Nat := (a + U64_MOD - b) % U64_MOD

/-- Wrap an integer into the `i64` range by two's complement. -/
def i64_wrap (x : Int) : Int := (x + 2 ^ 63) % (2 ^ 64) - 2 ^ 63

/-- Wrapping `i64` addition. -/
def i64_add (a b : Int) : Int := i64_wrap (a + b)

/-- Wrapping `i64` subtraction. -/
def i64_sub (a b : Int) : Int := i64_wrap (a - b)

/-- Rust `u64 as i64` cast. -/
def u64_as_i64 (x : Nat) : Int := i64_wrap x

/-- Rust `i128 as u64` cast (truncation to the low 64 bits). -/
def u64_of_i128 (x : Int) : Nat := (x % (2 ^ 64 : Int)).toNat

-- Constants from the top of lib.rs.

/-- Chainlink oracle program id (devnet), the literal byte array of the source. -/
def CHAINLINK_PROGRAM_ID : Pubkey :=
  [241, 75, 246, 90, 213, 107, 210, 186, 113, 94, 69, 116, 44, 35, 31, 39,
   214, 54, 33, 207, 91, 119, 143, 55, 193, 162, 72, 149, 29, 23, 86, 2]

/-- SOL/USD price feed (devnet), the literal byte array of the source. -/
def SOL_USD_FEED : Pubkey :=
  [120, 245, 122, 225, 25, 94, 140, 73, 122, 139, 224, 84, 173, 82, 173, 244,
   200, 151, 111, 132, 54, 115, 35, 9, 226, 42, 247, 6, 119, 36, 173, 150]

def TOKEN_PRICE_USD_CENTS : Nat := 10
def USD_CENTS_SCALE : Nat := 100
def CHAINLINK_USD_DECIMALS : Nat := 8
def TOKEN_DECIMALS : Nat := 9
def SOL_LAMPORTS : Nat := 1000000000
def PRICE_STALENESS_THRESHOLD : Nat := 300
def MIN_SOL_INVESTMENT_LAMPORTS : Nat := 1000000
def MAX_SOL_INVESTMENT_LAMPORTS : Nat := 10000000000000

/-- The `EscrowError` enum of the source. -/
inductive EscrowError
  | InvalidInstruction
  | NotRentExempt
  | ExpectedAmountMismatch
  | AmountOverflow
  | InvalidEscrowStatus
  | Unauthorized
  | SolStillLocked
  | NoSolToWithdraw
  | InvalidPriceFeed
  | StalePriceData
  | InsufficientSolDeposit
  | NotEnoughTokens
  | InvalidPDA
  | InvestmentBelowMinimum
  | InvestmentExceedsMaximum
  | InvalidTokenAccount
  deriving DecidableEq

/-- The subset of `solana_program::ProgramError` values the handlers return,
with `Custom` wrapping an `EscrowError` as in the source `From` impl. -/
inductive ProgErr
  | MissingRequiredSignature
  | IncorrectProgramId
  | InvalidAccountData
  | AccountAlreadyInitialized
  | Custom (e : EscrowError)
  deriving DecidableEq

/-- The `GlobalEscrow` account state of the source. -/
structure GlobalEscrow where
  is_initialized : Bool
  initializer_pubkey : Pubkey
  token_mint_pubkey : Pubkey
  recipient_wallet : Pubkey
  total_tokens_available : Nat
  tokens_sold : Nat
  total_sol_deposited : Nat
  total_sol_withdrawn : Nat
  lock_duration : Int
  oracle_program_id : Pubkey
  price_feed_pubkey : Pubkey
  min_sol_investment : Nat
  max_sol_investment : Nat
  price_staleness_threshold : Nat
  sale_end_timestamp : Int
  initialization_timestamp : Int
  deriving DecidableEq

/-- The `InvestorStatus` enum of the source. -/
inductive InvestorStatus
  | Uninitialized
  | Deposited
  | SolWithdrawn
  deriving DecidableEq

/-- The `InvestorAccount` state of the source. -/
structure InvestorAccount where
  is_initialized : Bool
  investor_pubkey : Pubkey
  global_escrow_pubkey : Pubkey
  sol_deposited : Nat
  tokens_received : Nat
  deposit_timestamp : Int
  sol_usd_price : Nat
  status : InvestorStatus
  deriving DecidableEq

/-- `InvestorAccount::get_locked_sol_amount`: 50% of deposited SOL. -/
def InvestorAccount.get_locked_sol_amount (inv : InvestorAccount) : Nat :=
  inv.sol_deposited / 2

/-- `checked_mul_div`: `(a as u128) * b / c`, back to `u64`.  The u128
multiplication of two u64 values never overflows, so only division by zero
and the final `u64::try_from` can fail, both with `AmountOverflow`. -/
def checked_mul_div (a b c : Nat) : Except EscrowError Nat :=
  if c = 0 then Except.error EscrowError.AmountOverflow
  else if a * b / c < U64_MOD then Except.ok (a * b / c)
  else Except.error EscrowError.AmountOverflow

/-- `calculate_tokens_for_sol` of the source: three-step fixed-point pricing. -/
def calculate_tokens_for_sol (sol_amount_lamports sol_usd_price : Nat) :
    Except EscrowError Nat :=
  match checked_mul_div sol_amount_lamports sol_usd_price SOL_LAMPORTS with
  | Except.error e => Except.error e
  | Except.ok sol_value_usd_8decimals =>
    -- `checked_div` by the nonzero constant 10^(8-2); `None` only on zero divisor.
    if 10 ^ (CHAINLINK_USD_DECIMALS - 2) = 0 then Except.error EscrowError.AmountOverflow
    else
      -- sol_value_cents = sol_value_usd_8decimals / 10^6, then step 3
      checked_mul_div (sol_value_usd_8decimals / 10 ^ (CHAINLINK_USD_DECIMALS - 2))
        (10 ^ TOKEN_DECIMALS) TOKEN_PRICE_USD_CENTS

/-- A Chainlink round as returned by `latest_round_data`:
`answer : i128`, `timestamp : u32`. -/
structure Round where
  answer : Int
  timestamp : Nat
  deriving DecidableEq

/-- Oracle-related inputs of an instruction: the keys of the passed accounts
and the round data (`none` models a failing `latest_round_data`). -/
structure OracleEnv where
  oracle_program_key : Pubkey
  price_feed_key : Pubkey
  round : Option Round
  deriving DecidableEq

/-- `get_chainlink_price`: key checks against the immutably stored config,
staleness check, positivity check; returns `(price, timestamp)`. -/
def get_chainlink_price (env : OracleEnv) (now : Int) (g : GlobalEscrow) :
    Except ProgErr (Nat × Int) :=
  if env.oracle_program_key ≠ g.oracle_program_id then
    Except.error (ProgErr.Custom EscrowError.InvalidPriceFeed)
  else if env.price_feed_key ≠ g.price_feed_pubkey then
    Except.error (ProgErr.Custom EscrowError.InvalidPriceFeed)
  else
    match env.round with
    | none => Except.error (ProgErr.Custom EscrowError.InvalidPriceFeed)
    | some round_data =>
      if i64_sub now (Int.ofNat round_data.timestamp) >
          u64_as_i64 g.price_staleness_threshold then
        Except.error (ProgErr.Custom EscrowError.StalePriceData)
      else if round_data.answer ≤ 0 then
        Except.error (ProgErr.Custom EscrowError.InvalidPriceFeed)
      else
        Except.ok (u64_of_i128 round_data.answer, Int.ofNat round_data.timestamp)

/-- Non-state inputs of `process_initialize_escrow`: signer flag, account keys,
and the outcomes of the plumbing checks, in source order. -/
structure InitEnv where
  initializer_is_signer : Bool
  initializer_key : Pubkey
  token_mint_key : Pubkey
  recipient_wallet_key : Pubkey
  token_program_ok : Bool
  oracle_program_key : Pubkey
  price_feed_key : Pubkey
  system_program_ok : Bool
  global_escrow_pda_ok : Bool
  token_vault_pda_ok : Bool
  already_in_use : Bool
  now : Int
  deriving DecidableEq

/-- `process_initialize_escrow`: validation chain in source order, then the
freshly committed `GlobalEscrow` record (`tokens_sold = 0`, config stored
immutably, creation timestamp = current time). -/
def process_initialize_escrow (env : InitEnv) (token_amount : Nat)
    (lock_duration sale_end_timestamp : Int)
    (min_sol_investment max_sol_investment price_staleness_threshold : Nat) :
    Except ProgErr GlobalEscrow :=
  if env.initializer_is_signer = false then Except.error ProgErr.MissingRequiredSignature
  else if env.token_program_ok = false then Except.error ProgErr.IncorrectProgramId
  else if env.oracle_program_key ≠ CHAINLINK_PROGRAM_ID then
    Except.error (ProgErr.Custom EscrowError.InvalidPriceFeed)
  else if env.price_feed_key ≠ SOL_USD_FEED then
    Except.error (ProgErr.Custom EscrowError.InvalidPriceFeed)
  else if env.system_program_ok = false then Except.error ProgErr.IncorrectProgramId
  else if env.global_escrow_pda_ok = false then
    Except.error (ProgErr.Custom EscrowError.InvalidPDA)
  else if env.token_vault_pda_ok = false then
    Except.error (ProgErr.Custom EscrowError.InvalidPDA)
  else if env.already_in_use then Except.error ProgErr.AccountAlreadyInitialized
  else if lock_duration < 60 ∨ 365 * 24 * 60 * 60 < lock_duration then
    Except.error (ProgErr.Custom EscrowError.InvalidInstruction)
  else Except.ok {
    is_initialized := true
    initializer_pubkey := env.initializer_key
    token_mint_pubkey := env.token_mint_key
    recipient_wallet := env.recipient_wallet_key
    total_tokens_available := token_amount
    tokens_sold := 0
    total_sol_deposited := 0
    total_sol_withdrawn := 0
    lock_duration := lock_duration
    oracle_program_id := env.oracle_program_key
    price_feed_pubkey := env.price_feed_key
    min_sol_investment := min_sol_investment
    max_sol_investment := max_sol_investment
    price_staleness_threshold := price_staleness_threshold
    sale_end_timestamp := sale_end_timestamp
    initialization_timestamp := env.now }

/-- Non-state inputs of `process_deposit_sol`, in source order.
`ata_check` is the outcome of the ATA creation/validation block (`some e`
means that block returned error `e`); `investor_account` is `some` exactly
when the investor PDA account already exists with the program as owner and
the right data length, carrying its deserialized contents. -/
structure DepositEnv where
  investor_is_signer : Bool
  investor_key : Pubkey
  global_escrow_key : Pubkey
  token_program_ok : Bool
  system_program_ok : Bool
  oracle : OracleEnv
  ata_check : Option ProgErr
  investor_pda_ok : Bool
  sol_vault_pda_ok : Bool
  investor_account : Option InvestorAccount
  now : Int
  deriving DecidableEq

/-- The committed effects of a successful `process_deposit_sol`: the two SOL
transfer amounts, the token transfer amount, the oracle price used, and the
updated escrow and investor records. -/
structure DepositOk where
  sol_to_recipient : Nat
  sol_to_lock : Nat
  tokens_to_receive : Nat
  sol_usd_price : Nat
  new_escrow : GlobalEscrow
  new_investor : InvestorAccount
  deriving DecidableEq

/-- `process_deposit_sol`: the full check chain and state update of the
source, in order: signature, escrow initialized, program ids, ATA block,
PDAs, minimum investment, oracle read, pricing, remaining-token check,
per-investor maximum (new account: increment alone; existing account: new
cumulative total via wrapping `+`), 50/50 SOL split, and the wrapping
updates of `tokens_sold`, `total_sol_deposited`, `sol_deposited`,
`tokens_received`. -/
def process_deposit_sol (env : DepositEnv) (global_escrow : GlobalEscrow)
    (sol_amount : Nat) : Except ProgErr DepositOk :=
  if env.investor_is_signer = false then Except.error ProgErr.MissingRequiredSignature
  else if global_escrow.is_initialized = false then
    Except.error (ProgErr.Custom EscrowError.InvalidEscrowStatus)
  else if env.token_program_ok = false then Except.error ProgErr.IncorrectProgramId
  else if env.oracle.oracle_program_key ≠ global_escrow.oracle_program_id then
    Except.error (ProgErr.Custom EscrowError.InvalidPriceFeed)
  else if env.oracle.price_feed_key ≠ global_escrow.price_feed_pubkey then
    Except.error (ProgErr.Custom EscrowError.InvalidPriceFeed)
  else if env.system_program_ok = false then Except.error ProgErr.IncorrectProgramId
  else
    match env.ata_check with
    | some e => Except.error e
    | none =>
      if env.investor_pda_ok = false then Except.error (ProgErr.Custom EscrowError.InvalidPDA)
      else if env.sol_vault_pda_ok = false then
        Except.error (ProgErr.Custom EscrowError.InvalidPDA)
      else if sol_amount < global_escrow.min_sol_investment then
        Except.error (ProgErr.Custom EscrowError.InvestmentBelowMinimum)
      else
        match get_chainlink_price env.oracle env.now global_escrow with
        | Except.error e => Except.error e
        | Except.ok (sol_usd_price, _ts) =>
          match calculate_tokens_for_sol sol_amount sol_usd_price with
          | Except.error e => Except.error (ProgErr.Custom e)
          | Except.ok tokens_to_receive =>
            -- tokens_remaining: unchecked u64 subtraction in the source
            if u64_sub global_escrow.total_tokens_available global_escrow.tokens_sold <
                tokens_to_receive then
              Except.error (ProgErr.Custom EscrowError.NotEnoughTokens)
            else
              match env.investor_account with
              | none =>
                if global_escrow.max_sol_investment < sol_amount then
                  Except.error (ProgErr.Custom EscrowError.InvestmentExceedsMaximum)
                else
                  Except.ok {
                    sol_to_recipient := sol_amount / 2
                    sol_to_lock := sol_amount - sol_amount / 2
                    tokens_to_receive := tokens_to_receive
                    sol_usd_price := sol_usd_price
                    new_escrow := { global_escrow with
                      tokens_sold := u64_add global_escrow.tokens_sold tokens_to_receive
                      total_sol_deposited :=
                        u64_add global_escrow.total_sol_deposited sol_amount }
                    new_investor := {
                      is_initialized := true
                      investor_pubkey := env.investor_key
                      global_escrow_pubkey := env.global_escrow_key
                      sol_deposited := sol_amount
                      tokens_received := tokens_to_receive
                      deposit_timestamp := env.now
                      sol_usd_price := sol_usd_price
                      status := InvestorStatus.Deposited } }
              | some existing_data =>
                -- total_investment: unchecked u64 addition in the source
                if global_escrow.max_sol_investment <
                    u64_add existing_data.sol_deposited sol_amount then
                  Except.error (ProgErr.Custom EscrowError.InvestmentExceedsMaximum)
                else
                  Except.ok {
                    sol_to_recipient := sol_amount / 2
                    sol_to_lock := sol_amount - sol_amount / 2
                    tokens_to_receive := tokens_to_receive
                    sol_usd_price := sol_usd_price
                    new_escrow := { global_escrow with
                      tokens_sold := u64_add global_escrow.tokens_sold tokens_to_receive
                      total_sol_deposited :=
                        u64_add global_escrow.total_sol_deposited sol_amount }
                    new_investor := { existing_data with
                      sol_deposited := u64_add existing_data.sol_deposited sol_amount
                      tokens_received :=
                        u64_add existing_data.tokens_received tokens_to_receive
                      sol_usd_price := sol_usd_price } }

/-- Non-state inputs of `process_withdraw_locked_sol`, in source order. -/
structure WithdrawEnv where
  withdrawer_is_signer : Bool
  withdrawer_key : Pubkey
  global_escrow_key : Pubkey
  investor_owner_ok : Bool
  investor_pda_ok : Bool
  sol_vault_pda_ok : Bool
  recipient_key : Pubkey
  vault_balance : Nat
  min_rent_balance : Nat
  now : Int
  deriving DecidableEq

/-- The committed effects of a successful `process_withdraw_locked_sol`. -/
structure WithdrawOk where
  sol_to_withdraw : Nat
  new_escrow : GlobalEscrow
  new_investor : InvestorAccount
  deriving DecidableEq

/-- `process_withdraw_locked_sol`: signature, account-owner check, the
already-withdrawn guard, beneficiary authorization, PDA consistency checks,
the GLOBAL unlock-time gate `initialization_timestamp + lock_duration`,
vault balance and rent-exemption checks, then the transfer of
`sol_deposited / 2` and the `SolWithdrawn` status flip. -/
def process_withdraw_locked_sol (env : WithdrawEnv) (global_escrow : GlobalEscrow)
    (investor_data : InvestorAccount) : Except ProgErr WithdrawOk :=
  if env.withdrawer_is_signer = false then Except.error ProgErr.MissingRequiredSignature
  else if env.investor_owner_ok = false then
    Except.error (ProgErr.Custom EscrowError.InvalidPDA)
  else if investor_data.status = InvestorStatus.SolWithdrawn then
    Except.error (ProgErr.Custom EscrowError.NoSolToWithdraw)
  else if env.withdrawer_key ≠ global_escrow.recipient_wallet then
    Except.error (ProgErr.Custom EscrowError.Unauthorized)
  else if env.investor_pda_ok = false then
    Except.error (ProgErr.Custom EscrowError.InvalidPDA)
  else if investor_data.global_escrow_pubkey ≠ env.global_escrow_key then
    Except.error (ProgErr.Custom EscrowError.InvalidPDA)
  else if env.sol_vault_pda_ok = false then
    Except.error (ProgErr.Custom EscrowError.InvalidPDA)
  -- global_unlock_time = initialization_timestamp + lock_duration (i64 `+`)
  else if env.now < i64_add global_escrow.initialization_timestamp
      global_escrow.lock_duration then
    Except.error (ProgErr.Custom EscrowError.SolStillLocked)
  else if env.vault_balance < investor_data.get_locked_sol_amount then
    Except.error (ProgErr.Custom EscrowError.NoSolToWithdraw)
  else if env.vault_balance - investor_data.get_locked_sol_amount <
      env.min_rent_balance then
    Except.error (ProgErr.Custom EscrowError.NotRentExempt)
  else if env.recipient_key ≠ global_escrow.recipient_wallet then
    Except.error (ProgErr.Custom EscrowError.Unauthorized)
  else Except.ok {
    sol_to_withdraw := investor_data.get_locked_sol_amount
    new_escrow := { global_escrow with
      total_sol_withdrawn :=
        u64_add global_escrow.total_sol_withdrawn investor_data.get_locked_sol_amount }
    new_investor := { investor_data with status := InvestorStatus.SolWithdrawn } }

/-- Non-state inputs of `process_close_sale`, in source order. -/
structure CloseEnv where
  caller_is_signer : Bool
  caller_key : Pubkey
  token_program_ok : Bool
  token_vault_pda_ok : Bool
  now : Int
  deriving DecidableEq

/-- `process_close_sale`: signature, token program, initialized, beneficiary
authorization, sale-end gate, unsold-token computation (unchecked u64
subtraction), nothing-to-reclaim guard, vault PDA check, then the transfer
of all unsold tokens.  The source never rewrites the escrow record here, so
the result is just the transferred amount. -/
def process_close_sale (env : CloseEnv) (global_escrow : GlobalEscrow) :
    Except ProgErr Nat :=
  if env.caller_is_signer = false then Except.error ProgErr.MissingRequiredSignature
  else if env.token_program_ok = false then Except.error ProgErr.IncorrectProgramId
  else if global_escrow.is_initialized = false then
    Except.error (ProgErr.Custom EscrowError.InvalidEscrowStatus)
  else if env.caller_key ≠ global_escrow.recipient_wallet then
    Except.error (ProgErr.Custom EscrowError.Unauthorized)
  else if env.now < global_escrow.sale_end_timestamp then
    Except.error (ProgErr.Custom EscrowError.InvalidEscrowStatus)
  -- unsold_tokens = total_tokens_available - tokens_sold (unchecked u64 `-`)
  else if u64_sub global_escrow.total_tokens_available global_escrow.tokens_sold = 0 then
    Except.error (ProgErr.Custom EscrowError.NotEnoughTokens)
  else if env.token_vault_pda_ok = false then
    Except.error (ProgErr.Custom EscrowError.InvalidPDA)
  else Except.ok (u64_sub global_escrow.total_tokens_available global_escrow.tokens_sold)

-- Concrete scenario inputs used by witnesses and counterexamples.

/-- A concrete initialized sale matching the spec scenario: minimum
1_000_000, maximum 10_000_000_000_000, lock 3600 s, 10^19 tokens on offer. -/
def escrow0 : GlobalEscrow := {
  is_initialized := true
  initializer_pubkey := [1]
  token_mint_pubkey := [2]
  recipient_wallet := [3]
  total_tokens_available := 10000000000000000000
  tokens_sold := 0
  total_sol_deposited := 0
  total_sol_withdrawn := 0
  lock_duration := 3600
  oracle_program_id := CHAINLINK_PROGRAM_ID
  price_feed_pubkey := SOL_USD_FEED
  min_sol_investment := 1000000
  max_sol_investment := 10000000000000
  price_staleness_threshold := 300
  sale_end_timestamp := 1000000
  initialization_timestamp := 0 }

/-- Oracle reporting $217.00 (8 decimals), fresh at time 100. -/
def oracle217 : OracleEnv := {
  oracle_program_key := CHAINLINK_PROGRAM_ID
  price_feed_key := SOL_USD_FEED
  round := some { answer := 21700000000, timestamp := 100 } }

/-- Oracle reporting the smallest positive price (10^-8 USD), fresh at 100. -/
def oracle1 : OracleEnv := {
  oracle_program_key := CHAINLINK_PROGRAM_ID
  price_feed_key := SOL_USD_FEED
  round := some { answer := 1, timestamp := 100 } }

/-- A deposit call by a fresh investor at time 150 with the $217 oracle. -/
def depositEnv0 : DepositEnv := {
  investor_is_signer := true
  investor_key := [9]
  global_escrow_key := [10]
  token_program_ok := true
  system_program_ok := true
  oracle := oracle217
  ata_check := none
  investor_pda_ok := true
  sol_vault_pda_ok := true
  investor_account := none
  now := 150 }

/-- The investor position after one deposit of 5e12 lamports at $217. -/
def inv5 : InvestorAccount := {
  is_initialized := true
  investor_pubkey := [9]
  global_escrow_pubkey := [10]
  sol_deposited := 5000000000000
  tokens_received := 10850000000000000
  deposit_timestamp := 120
  sol_usd_price := 21700000000
  status := InvestorStatus.Deposited }

/-- The investor position after two deposits of 5e12 lamports at $217
(cumulative 10e12, exactly the configured maximum). -/
def inv10 : InvestorAccount := { inv5 with
  sol_deposited := 10000000000000
  tokens_received := 21700000000000000 }

/-- Second 5e12 deposit by the investor holding `inv5`. -/
def depositEnv5 : DepositEnv := { depositEnv0 with investor_account := some inv5 }

/-- Third 5e12 deposit by the investor holding `inv10`. -/
def depositEnv10 : DepositEnv := { depositEnv0 with investor_account := some inv10 }

/-- The successful outcome of the second 5e12 deposit. -/
def dep5Ok : DepositOk := {
  sol_to_recipient := 2500000000000
  sol_to_lock := 2500000000000
  tokens_to_receive := 10850000000000000
  sol_usd_price := 21700000000
  new_escrow := { escrow0 with
    tokens_sold := 10850000000000000
    total_sol_deposited := 5000000000000 }
  new_investor := { inv5 with
    sol_deposited := 10000000000000
    tokens_received := 21700000000000000 } }

/-- A lamport amount that overflows u64 when added to `inv10.sol_deposited`:
2^64 - 10^13 + 5. -/
def bigAmount : Nat := U64_MOD - 10000000000000 + 5

/-- Deposit of `bigAmount` by the investor holding `inv10`, with the oracle
at the minimal positive price so the pricing arithmetic stays in range. -/
def depositEnvBig : DepositEnv := { depositEnv0 with
  oracle := oracle1
  investor_account := some inv10 }

/-- The successful outcome of the `bigAmount` deposit: the cumulative
deposit wraps to 5. -/
def depBigOk : DepositOk := {
  sol_to_recipient := 9223367036854775810
  sol_to_lock := 9223367036854775811
  tokens_to_receive := 1844600000000
  sol_usd_price := 1
  new_escrow := { escrow0 with
    tokens_sold := 1844600000000
    total_sol_deposited := bigAmount }
  new_investor := { inv10 with
    sol_deposited := 5
    tokens_received := 21701844600000000
    sol_usd_price := 1 } }

/-- Fresh-investor deposit of the minimum amount at the minimal positive
price: worth less than one cent, so zero tokens are issued. -/
def depositEnvTiny : DepositEnv := { depositEnv0 with oracle := oracle1 }

/-- The successful outcome of the sub-cent deposit: zero tokens issued. -/
def depTinyOk : DepositOk := {
  sol_to_recipient := 500000
  sol_to_lock := 500000
  tokens_to_receive := 0
  sol_usd_price := 1
  new_escrow := { escrow0 with total_sol_deposited := 1000000 }
  new_investor := {
    is_initialized := true
    investor_pubkey := [9]
    global_escrow_pubkey := [10]
    sol_deposited := 1000000
    tokens_received := 0
    deposit_timestamp := 150
    sol_usd_price := 1
    status := InvestorStatus.Deposited } }

/-- The successful outcome of a fresh-investor deposit of the odd amount
1_000_001 at $217: the extra lamport goes to the lock share. -/
def depOddOk : DepositOk := {
  sol_to_recipient := 500000
  sol_to_lock := 500001
  tokens_to_receive := 2100000000
  sol_usd_price := 21700000000
  new_escrow := { escrow0 with
    tokens_sold := 2100000000
    total_sol_deposited := 1000001 }
  new_investor := {
    is_initialized := true
    investor_pubkey := [9]
    global_escrow_pubkey := [10]
    sol_deposited := 1000001
    tokens_received := 2100000000
    deposit_timestamp := 150
    sol_usd_price := 21700000000
    status := InvestorStatus.Deposited } }

/-- A sale with 100 tokens on offer, 40 sold, sale end at time 50. -/
def closeEscrow0 : GlobalEscrow := { escrow0 with
  total_tokens_available := 100
  tokens_sold := 40
  sale_end_timestamp := 50 }

/-- A CloseSale call by the beneficiary at time 60 (after sale end). -/
def closeEnv0 : CloseEnv := {
  caller_is_signer := true
  caller_key := [3]
  token_program_ok := true
  token_vault_pda_ok := true
  now := 60 }

/-- A WithdrawLocked call by the beneficiary at time 7200 (after unlock). -/
def withdrawEnv0 : WithdrawEnv := {
  withdrawer_is_signer := true
  withdrawer_key := [3]
  global_escrow_key := [10]
  investor_owner_ok := true
  investor_pda_ok := true
  sol_vault_pda_ok := true
  recipient_key := [3]
  vault_balance := 3000000000000
  min_rent_balance := 1000
  now := 7200 }

/-- `inv5` after its locked SOL has been withdrawn. -/
def inv5W : InvestorAccount := { inv5 with status := InvestorStatus.SolWithdrawn }

/-- The successful outcome of a fresh-investor deposit of 1_000_000_000
lamports at $217 (the spec's concrete scenario). -/
def dep0Ok : DepositOk := {
  sol_to_recipient := 500000000
  sol_to_lock := 500000000
  tokens_to_receive := 2170000000000
  sol_usd_price := 21700000000
  new_escrow := { escrow0 with
    tokens_sold := 2170000000000
    total_sol_deposited := 1000000000 }
  new_investor := {
    is_initialized := true
    investor_pubkey := [9]
    global_escrow_pubkey := [10]
    sol_deposited := 1000000000
    tokens_received := 2170000000000
    deposit_timestamp := 150
    sol_usd_price := 21700000000
    status := InvestorStatus.Deposited } }

-- Helper lemmas about the arithmetic model.

/-- Wrapping u64 addition agrees with `+` below 2^64. -/
theorem u64_add_eq {a b : Nat} (h : a + b < U64_MOD) : u64_add a b = a + b :=
  Nat.mod_eq_of_lt h

/-- Wrapping u64 subtraction agrees with `-` when no underflow occurs. -/
theorem u64_sub_eq {a b : Nat} (hba : b ≤ a) (ha : a < U64_MOD) :
    u64_sub a b = a - b := by
  unfold u64_sub
  have hrw : a + U64_MOD - b = U64_MOD + (a - b) := by omega
  rw [hrw, Nat.add_mod_left, Nat.mod_eq_of_lt (by omega)]

/-- Wrapping i64 arithmetic agrees with `Int` arithmetic inside the range. -/
theorem i64_wrap_eq {x : Int} (hlo : -(2 ^ 63) ≤ x) (hhi : x < 2 ^ 63) :
    i64_wrap x = x := by
  unfold i64_wrap
  rw [Int.emod_eq_of_lt (by omega) (by omega)]
  omega

/-- A successful `checked_mul_div` returns the truncated product-quotient. -/
theorem checked_mul_div_ok {a b c r : Nat} (h : checked_mul_div a b c = Except.ok r) :
    r = a * b / c := by
  unfold checked_mul_div at h
  split at h
  · exact Except.noConfusion h
  · split at h
    · exact (Except.ok.inj h).symm
    · exact Except.noConfusion h

/-- A successful pricing run computes
`floor(floor(floor(a * p / 10^9) / 10^6) * 10^9 / 10)`. -/
theorem calc_ok_val {a p t : Nat} (h : calculate_tokens_for_sol a p = Except.ok t) :
    t = a * p / SOL_LAMPORTS / 10 ^ (CHAINLINK_USD_DECIMALS - 2)
        * 10 ^ TOKEN_DECIMALS / TOKEN_PRICE_USD_CENTS := by
  unfold calculate_tokens_for_sol at h
  split at h
  · exact Except.noConfusion h
  · rename_i v hv
    split at h
    · exact Except.noConfusion h
    · rw [checked_mul_div_ok h, checked_mul_div_ok hv]

/-- Inversion of a successful `process_deposit_sol`: the oracle price used,
the pricing-calculator call, the remaining-token bound, the 50/50 split, the
escrow update, the minimum-investment bound, and the investor-record update
in both the fresh-investor and existing-investor branches. -/
theorem deposit_ok_facts {env : DepositEnv} {g : GlobalEscrow} {a : Nat} {r : DepositOk}
    (h : process_deposit_sol env g a = Except.ok r) :
    (∃ ts, get_chainlink_price env.oracle env.now g = Except.ok (r.sol_usd_price, ts))
    ∧ calculate_tokens_for_sol a r.sol_usd_price = Except.ok r.tokens_to_receive
    ∧ r.tokens_to_receive ≤ u64_sub g.total_tokens_available g.tokens_sold
    ∧ r.sol_to_recipient = a / 2
    ∧ r.sol_to_lock = a - a / 2
    ∧ r.new_escrow.tokens_sold = u64_add g.tokens_sold r.tokens_to_receive
    ∧ r.new_escrow.total_tokens_available = g.total_tokens_available
    ∧ r.new_escrow.total_sol_deposited = u64_add g.total_sol_deposited a
    ∧ g.min_sol_investment ≤ a
    ∧ (∀ d, env.investor_account = some d →
        r.new_investor.status = d.status
        ∧ r.new_investor.sol_deposited = u64_add d.sol_deposited a
        ∧ r.new_investor.tokens_received = u64_add d.tokens_received r.tokens_to_receive
        ∧ u64_add d.sol_deposited a ≤ g.max_sol_investment)
    ∧ (env.investor_account = none →
        r.new_investor.status = InvestorStatus.Deposited
        ∧ r.new_investor.sol_deposited = a
        ∧ r.new_investor.tokens_received = r.tokens_to_receive
        ∧ a ≤ g.max_sol_investment) := by
  unfold process_deposit_sol at h
  by_cases h1 : env.investor_is_signer = false
  · rw [if_pos h1] at h; exact Except.noConfusion h
  rw [if_neg h1] at h
  by_cases h2 : g.is_initialized = false
  · rw [if_pos h2] at h; exact Except.noConfusion h
  rw [if_neg h2] at h
  by_cases h3 : env.token_program_ok = false
  · rw [if_pos h3] at h; exact Except.noConfusion h
  rw [if_neg h3] at h
  by_cases h4 : env.oracle.oracle_program_key ≠ g.oracle_program_id
  · rw [if_pos h4] at h; exact Except.noConfusion h
  rw [if_neg h4] at h
  by_cases h5 : env.oracle.price_feed_key ≠ g.price_feed_pubkey
  · rw [if_pos h5] at h; exact Except.noConfusion h
  rw [if_neg h5] at h
  by_cases h6 : env.system_program_ok = false
  · rw [if_pos h6] at h; exact Except.noConfusion h
  rw [if_neg h6] at h
  revert h
  cases henv : env.ata_check with
  | some e => intro h; exact Except.noConfusion h
  | none =>
  intro h
  by_cases h7 : env.investor_pda_ok = false
  · rw [if_pos h7] at h; exact Except.noConfusion h
  rw [if_neg h7] at h
  by_cases h8 : env.sol_vault_pda_ok = false
  · rw [if_pos h8] at h; exact Except.noConfusion h
  rw [if_neg h8] at h
  by_cases h9 : a < g.min_sol_investment
  · rw [if_pos h9] at h; exact Except.noConfusion h
  rw [if_neg h9] at h
  revert h
  cases hcl : get_chainlink_price env.oracle env.now g with
  | error e => intro h; exact Except.noConfusion h
  | ok pr =>
  obtain ⟨p, ts⟩ := pr
  intro h
  dsimp only at h
  revert h
  cases hct : calculate_tokens_for_sol a p with
  | error e => intro h; exact Except.noConfusion h
  | ok t =>
  intro h
  dsimp only at h
  by_cases h10 : u64_sub g.total_tokens_available g.tokens_sold < t
  · rw [if_pos h10] at h; exact Except.noConfusion h
  rw [if_neg h10] at h
  revert h
  cases hinv : env.investor_account with
  | none =>
    intro h
    dsimp only at h
    by_cases h11 : g.max_sol_investment < a
    · rw [if_pos h11] at h; exact Except.noConfusion h
    rw [if_neg h11] at h
    have hr : r = _ := (Except.ok.inj h).symm
    subst hr
    refine ⟨⟨ts, rfl⟩, hct, Nat.le_of_not_lt h10, rfl, rfl, rfl, rfl, rfl,
      Nat.le_of_not_lt h9, ?_, ?_⟩
    · intro d hd
      exact Option.noConfusion hd
    · intro _
      exact ⟨rfl, rfl, rfl, Nat.le_of_not_lt h11⟩
  | some existing_data =>
    intro h
    dsimp only at h
    by_cases h11 : g.max_sol_investment < u64_add existing_data.sol_deposited a
    · rw [if_pos h11] at h; exact Except.noConfusion h
    rw [if_neg h11] at h
    have hr : r = _ := (Except.ok.inj h).symm
    subst hr
    refine ⟨⟨ts, rfl⟩, hct, Nat.le_of_not_lt h10, rfl, rfl, rfl, rfl, rfl,
      Nat.le_of_not_lt h9, ?_, ?_⟩
    · intro d hd
      cases hd
      exact ⟨rfl, rfl, rfl, Nat.le_of_not_lt h11⟩
    · intro hnone
      exact Option.noConfusion hnone

/-- Inversion of a successful `process_withdraw_locked_sol`: the position was
not yet withdrawn, the caller is the beneficiary, the global unlock time has
passed, half the deposit is transferred, the status flips to `SolWithdrawn`,
and the token totals of the escrow are untouched. -/
theorem withdraw_ok_facts {env : WithdrawEnv} {g : GlobalEscrow} {inv : InvestorAccount}
    {r : WithdrawOk} (h : process_withdraw_locked_sol env g inv = Except.ok r) :
    inv.status ≠ InvestorStatus.SolWithdrawn
    ∧ env.withdrawer_key = g.recipient_wallet
    ∧ i64_add g.initialization_timestamp g.lock_duration ≤ env.now
    ∧ r.sol_to_withdraw = inv.get_locked_sol_amount
    ∧ r.new_investor.status = InvestorStatus.SolWithdrawn
    ∧ r.new_investor.sol_deposited = inv.sol_deposited
    ∧ r.new_escrow.tokens_sold = g.tokens_sold
    ∧ r.new_escrow.total_tokens_available = g.total_tokens_available := by
  unfold process_withdraw_locked_sol at h
  by_cases h1 : env.withdrawer_is_signer = false
  · rw [if_pos h1] at h; exact Except.noConfusion h
  rw [if_neg h1] at h
  by_cases h2 : env.investor_owner_ok = false
  · rw [if_pos h2] at h; exact Except.noConfusion h
  rw [if_neg h2] at h
  by_cases h3 : inv.status = InvestorStatus.SolWithdrawn
  · rw [if_pos h3] at h; exact Except.noConfusion h
  rw [if_neg h3] at h
  by_cases h4 : env.withdrawer_key ≠ g.recipient_wallet
  · rw [if_pos h4] at h; exact Except.noConfusion h
  rw [if_neg h4] at h
  by_cases h5 : env.investor_pda_ok = false
  · rw [if_pos h5] at h; exact Except.noConfusion h
  rw [if_neg h5] at h
  by_cases h6 : inv.global_escrow_pubkey ≠ env.global_escrow_key
  · rw [if_pos h6] at h; exact Except.noConfusion h
  rw [if_neg h6] at h
  by_cases h7 : env.sol_vault_pda_ok = false
  · rw [if_pos h7] at h; exact Except.noConfusion h
  rw [if_neg h7] at h
  by_cases h8 : env.now < i64_add g.initialization_timestamp g.lock_duration
  · rw [if_pos h8] at h; exact Except.noConfusion h
  rw [if_neg h8] at h
  by_cases h9 : env.vault_balance < inv.get_locked_sol_amount
  · rw [if_pos h9] at h; exact Except.noConfusion h
  rw [if_neg h9] at h
  by_cases h10 : env.vault_balance - inv.get_locked_sol_amount < env.min_rent_balance
  · rw [if_pos h10] at h; exact Except.noConfusion h
  rw [if_neg h10] at h
  by_cases h11 : env.recipient_key ≠ g.recipient_wallet
  · rw [if_pos h11] at h; exact Except.noConfusion h
  rw [if_neg h11] at h
  have hr : r = _ := (Except.ok.inj h).symm
  subst hr
  exact ⟨h3, not_not.mp h4, le_of_not_lt h8, rfl, rfl, rfl, rfl, rfl⟩

/-- Inversion of a successful `process_close_sale`: the sale has ended, the
caller is the beneficiary, and the transferred amount is the (nonzero)
unsold-token count; the escrow record itself is never rewritten. -/
theorem close_ok_facts {env : CloseEnv} {g : GlobalEscrow} {n : Nat}
    (h : process_close_sale env g = Except.ok n) :
    g.sale_end_timestamp ≤ env.now
    ∧ n = u64_sub g.total_tokens_available g.tokens_sold
    ∧ n ≠ 0
    ∧ env.caller_key = g.recipient_wallet := by
  unfold process_close_sale at h
  by_cases h1 : env.caller_is_signer = false
  · rw [if_pos h1] at h; exact Except.noConfusion h
  rw [if_neg h1] at h
  by_cases h2 : env.token_program_ok = false
  · rw [if_pos h2] at h; exact Except.noConfusion h
  rw [if_neg h2] at h
  by_cases h3 : g.is_initialized = false
  · rw [if_pos h3] at h; exact Except.noConfusion h
  rw [if_neg h3] at h
  by_cases h4 : env.caller_key ≠ g.recipient_wallet
  · rw [if_pos h4] at h; exact Except.noConfusion h
  rw [if_neg h4] at h
  by_cases h5 : env.now < g.sale_end_timestamp
  · rw [if_pos h5] at h; exact Except.noConfusion h
  rw [if_neg h5] at h
  by_cases h6 : u64_sub g.total_tokens_available g.tokens_sold = 0
  · rw [if_pos h6] at h; exact Except.noConfusion h
  rw [if_neg h6] at h
  by_cases h7 : env.token_vault_pda_ok = false
  · rw [if_pos h7] at h; exact Except.noConfusion h
  rw [if_neg h7] at h
  exact ⟨le_of_not_lt h5, (Except.ok.inj h).symm, (Except.ok.inj h).symm ▸ h6,
    not_not.mp h4⟩

/-- Inversion of a successful `process_initialize_escrow`: the committed sale
record starts with zero tokens sold, carries the requested configuration, and
the lock duration passed its range check. -/
theorem init_ok_facts {env : InitEnv} {tok : Nat} {lock send : Int}
    {minv maxv stale : Nat} {g : GlobalEscrow}
    (h : process_initialize_escrow env tok lock send minv maxv stale = Except.ok g) :
    g.tokens_sold = 0 ∧ g.total_tokens_available = tok ∧ g.is_initialized = true
    ∧ g.total_sol_deposited = 0 ∧ g.total_sol_withdrawn = 0
    ∧ g.lock_duration = lock ∧ 60 ≤ lock ∧ lock ≤ 365 * 24 * 60 * 60
    ∧ g.initialization_timestamp = env.now := by
  unfold process_initialize_escrow at h
  by_cases h1 : env.initializer_is_signer = false
  · rw [if_pos h1] at h; exact Except.noConfusion h
  rw [if_neg h1] at h
  by_cases h2 : env.token_program_ok = false
  · rw [if_pos h2] at h; exact Except.noConfusion h
  rw [if_neg h2] at h
  by_cases h3 : env.oracle_program_key ≠ CHAINLINK_PROGRAM_ID
  · rw [if_pos h3] at h; exact Except.noConfusion h
  rw [if_neg h3] at h
  by_cases h4 : env.price_feed_key ≠ SOL_USD_FEED
  · rw [if_pos h4] at h; exact Except.noConfusion h
  rw [if_neg h4] at h
  by_cases h5 : env.system_program_ok = false
  · rw [if_pos h5] at h; exact Except.noConfusion h
  rw [if_neg h5] at h
  by_cases h6 : env.global_escrow_pda_ok = false
  · rw [if_pos h6] at h; exact Except.noConfusion h
  rw [if_neg h6] at h
  by_cases h7 : env.token_vault_pda_ok = false
  · rw [if_pos h7] at h; exact Except.noConfusion h
  rw [if_neg h7] at h
  by_cases h8 : env.already_in_use = true
  · rw [if_pos h8] at h; exact Except.noConfusion h
  rw [if_neg h8] at h
  by_cases h9 : lock < 60 ∨ 365 * 24 * 60 * 60 < lock
  · rw [if_pos h9] at h; exact Except.noConfusion h
  rw [if_neg h9] at h
  have hg : g = _ := (Except.ok.inj h).symm
  subst hg
  exact ⟨rfl, rfl, rfl, rfl, rfl, rfl, by omega, by omega, rfl⟩

-- Claim theorems.

/-- C1 counterexample: on a deposit of 1_000_000_000 lamports at oracle price
21_700_000_000 the pricing calculator does NOT return 217_000_000_000: at
$217 per SOL and 10 cents per token, 1 SOL buys 2170 tokens, not 217. -/
theorem C1_counterexample :
    calculate_tokens_for_sol 1000000000 21700000000 ≠ Except.ok 217000000000 := by
  have h : calculate_tokens_for_sol 1000000000 21700000000 =
      Except.ok 2170000000000 := rfl
  rw [h]
  intro hc
  exact absurd (Except.ok.inj hc) (by decide)

/-- C1 (amended): for a sale with token price 10 cents and token decimals 9,
when the oracle reports 21_700_000_000 ($217.00, 8 decimals), a deposit of
1_000_000_000 lamports yields exactly 2_170_000_000_000 token smallest-units
(2170 tokens at 9 decimals) from the pricing calculator. -/
theorem C1_amended :
    calculate_tokens_for_sol 1000000000 21700000000 = Except.ok 2170000000000 := rfl

/-- C7: on inputs where it succeeds, `calculate_tokens_for_sol` is monotonic
non-decreasing in the payment amount for a fixed price, and in the price for
a fixed payment amount. -/
theorem C7_monotonic (a b p q s t : Nat) :
    (a ≤ b → calculate_tokens_for_sol a p = Except.ok s →
      calculate_tokens_for_sol b p = Except.ok t → s ≤ t)
    ∧ (p ≤ q → calculate_tokens_for_sol a p = Except.ok s →
      calculate_tokens_for_sol a q = Except.ok t → s ≤ t) := by
  constructor
  · intro hab h1 h2
    rw [calc_ok_val h1, calc_ok_val h2]
    gcongr
  · intro hpq h1 h2
    rw [calc_ok_val h1, calc_ok_val h2]
    gcongr

/-- C7 witness: doubling a 1-SOL deposit at $217 doubles the token output. -/
theorem C7_monotonic_witness : (2170000000000 : Nat) ≤ 4340000000000 :=
  (C7_monotonic 1000000000 2000000000 21700000000 21700000000
    2170000000000 4340000000000).1 (by decide) rfl rfl

/-- C2: CloseSale called before `sale_end_timestamp` never succeeds; when it
succeeds after `sale_end_timestamp` it transfers exactly
`total_tokens_available - tokens_sold` unsold tokens (a positive amount);
and once unsold tokens are zero, a call passing all earlier checks fails
deterministically with `NotEnoughTokens` instead of transferring zero. -/
theorem C2_close_sale (env : CloseEnv) (g : GlobalEscrow) :
    (env.now < g.sale_end_timestamp → ∀ n, process_close_sale env g ≠ Except.ok n)
    ∧ (g.tokens_sold ≤ g.total_tokens_available → g.total_tokens_available < U64_MOD →
      ∀ n, process_close_sale env g = Except.ok n →
        n = g.total_tokens_available - g.tokens_sold ∧ 0 < n)
    ∧ (g.tokens_sold = g.total_tokens_available → g.total_tokens_available < U64_MOD →
      env.caller_is_signer = true → env.token_program_ok = true →
      g.is_initialized = true → env.caller_key = g.recipient_wallet →
      g.sale_end_timestamp ≤ env.now →
      process_close_sale env g =
        Except.error (ProgErr.Custom EscrowError.NotEnoughTokens)) := by
  refine ⟨?_, ?_, ?_⟩
  · intro hlt n hok
    exact absurd (close_ok_facts hok).1 (not_le.mpr hlt)
  · intro hle hbound n hok
    obtain ⟨-, hn, hne, -⟩ := close_ok_facts hok
    rw [u64_sub_eq hle hbound] at hn
    exact ⟨hn, by omega⟩
  · intro heq hbound hs hp hi hc ht
    unfold process_close_sale
    rw [if_neg (by simp [hs]), if_neg (by simp [hp]), if_neg (by simp [hi]),
      if_neg (by simp [hc]), if_neg (not_lt.mpr ht),
      if_pos (by rw [heq, u64_sub_eq le_rfl hbound]; omega)]

/-- C2 witness: with 100 tokens on offer, 40 sold and the sale over, a
beneficiary CloseSale transfers exactly 60 tokens. -/
theorem C2_close_sale_witness : (60 : Nat) = 100 - 40 ∧ (0 : Nat) < 60 :=
  (C2_close_sale closeEnv0 closeEscrow0).2.1 (by decide) (by decide) 60 rfl

/-- C3: `tokens_sold ≤ total_tokens_available` holds in every reachable state:
it is established at initialization (`tokens_sold = 0`) and preserved by every
operation; every successful deposit adds exactly the pricing calculator's
output to `tokens_sold`, a deposit whose computed tokens exceed the remaining
supply fails with `NotEnoughTokens`, and withdrawal (like CloseSale, which
never rewrites the record) leaves both token fields unchanged. -/
theorem C3_tokens_sold_invariant :
    (∀ env tok lock send minv maxv stale g, tok < U64_MOD →
      process_initialize_escrow env tok lock send minv maxv stale = Except.ok g →
      g.tokens_sold = 0 ∧ g.tokens_sold ≤ g.total_tokens_available
        ∧ g.total_tokens_available < U64_MOD)
    ∧ (∀ env g a r,
      g.tokens_sold ≤ g.total_tokens_available → g.total_tokens_available < U64_MOD →
      process_deposit_sol env g a = Except.ok r →
      r.new_escrow.tokens_sold = g.tokens_sold + r.tokens_to_receive
      ∧ calculate_tokens_for_sol a r.sol_usd_price = Except.ok r.tokens_to_receive
      ∧ r.new_escrow.tokens_sold ≤ r.new_escrow.total_tokens_available
      ∧ r.new_escrow.total_tokens_available < U64_MOD)
    ∧ (∀ env g a p ts t,
      env.investor_is_signer = true → g.is_initialized = true →
      env.token_program_ok = true →
      env.oracle.oracle_program_key = g.oracle_program_id →
      env.oracle.price_feed_key = g.price_feed_pubkey →
      env.system_program_ok = true → env.ata_check = none →
      env.investor_pda_ok = true → env.sol_vault_pda_ok = true →
      g.min_sol_investment ≤ a →
      get_chainlink_price env.oracle env.now g = Except.ok (p, ts) →
      calculate_tokens_for_sol a p = Except.ok t →
      u64_sub g.total_tokens_available g.tokens_sold < t →
      process_deposit_sol env g a =
        Except.error (ProgErr.Custom EscrowError.NotEnoughTokens))
    ∧ (∀ env g inv r, process_withdraw_locked_sol env g inv = Except.ok r →
      r.new_escrow.tokens_sold = g.tokens_sold
      ∧ r.new_escrow.total_tokens_available = g.total_tokens_available) := by
  refine ⟨?_, ?_, ?_, ?_⟩
  · intro env tok lock send minv maxv stale g hbound h
    obtain ⟨h0, htot, -⟩ := init_ok_facts h
    exact ⟨h0, by omega, by omega⟩
  · intro env g a r hle hbound h
    obtain ⟨-, hcalc, hrem, -, -, hsold, htot, -⟩ := deposit_ok_facts h
    rw [u64_sub_eq hle hbound] at hrem
    have hfit : g.tokens_sold + r.tokens_to_receive < U64_MOD := by omega
    rw [u64_add_eq hfit] at hsold
    exact ⟨hsold, hcalc, by omega, by omega⟩
  · intro env g a p ts t hs hi hp ho hf hsys hata hpda hvda hmin hcl hct hlt
    unfold process_deposit_sol
    rw [if_neg (by simp [hs]), if_neg (by simp [hi]), if_neg (by simp [hp]),
      if_neg (by simp [ho]), if_neg (by simp [hf]), if_neg (by simp [hsys]), hata]
    dsimp only
    rw [if_neg (by simp [hpda]), if_neg (by simp [hvda]),
      if_neg (not_lt.mpr hmin), hcl]
    dsimp only
    rw [hct]
    dsimp only
    rw [if_pos hlt]
  · intro env g inv r h
    obtain ⟨-, -, -, -, -, -, h7, h8⟩ := withdraw_ok_facts h
    exact ⟨h7, h8⟩

/-- C3 witness: the concrete 1-SOL deposit at $217 adds exactly
2_170_000_000_000 to `tokens_sold` and keeps the invariant. -/
theorem C3_tokens_sold_invariant_witness :
    dep0Ok.new_escrow.tokens_sold = escrow0.tokens_sold + dep0Ok.tokens_to_receive
    ∧ dep0Ok.new_escrow.tokens_sold ≤ dep0Ok.new_escrow.total_tokens_available :=
  have h := C3_tokens_sold_invariant.2.1 depositEnv0 escrow0 1000000000 dep0Ok
    (by decide) (by decide) rfl
  ⟨h.1, h.2.2.1⟩

/-- C4: WithdrawLocked succeeds at most once per position: success flips the
status to `SolWithdrawn`; a later call on a `SolWithdrawn` position (passing
the signer and owner checks that precede the guard) fails with
`NoSolToWithdraw`; a deposit on a `SolWithdrawn` position keeps the status;
and no successful withdrawal ever starts from a `SolWithdrawn` position. -/
theorem C4_withdraw_at_most_once :
    (∀ env g inv r, process_withdraw_locked_sol env g inv = Except.ok r →
      r.new_investor.status = InvestorStatus.SolWithdrawn)
    ∧ (∀ env g inv, inv.status = InvestorStatus.SolWithdrawn →
      env.withdrawer_is_signer = true → env.investor_owner_ok = true →
      process_withdraw_locked_sol env g inv =
        Except.error (ProgErr.Custom EscrowError.NoSolToWithdraw))
    ∧ (∀ env g a r d, env.investor_account = some d →
      d.status = InvestorStatus.SolWithdrawn →
      process_deposit_sol env g a = Except.ok r →
      r.new_investor.status = InvestorStatus.SolWithdrawn)
    ∧ (∀ env g inv r, process_withdraw_locked_sol env g inv = Except.ok r →
      inv.status ≠ InvestorStatus.SolWithdrawn) := by
  refine ⟨?_, ?_, ?_, ?_⟩
  · intro env g inv r h
    exact (withdraw_ok_facts h).2.2.2.2.1
  · intro env g inv hst hs hown
    unfold process_withdraw_locked_sol
    rw [if_neg (by simp [hs]), if_neg (by simp [hown]), if_pos hst]
  · intro env g a r d hd hst h
    obtain ⟨-, -, -, -, -, -, -, -, -, hsome, -⟩ := deposit_ok_facts h
    rw [(hsome d hd).1, hst]
  · intro env g inv r h
    exact (withdraw_ok_facts h).1

/-- C4 witness: the second WithdrawLocked on the already-withdrawn position
`inv5W` fails with `NoSolToWithdraw`. -/
theorem C4_withdraw_at_most_once_witness :
    process_withdraw_locked_sol withdrawEnv0 escrow0 inv5W =
      Except.error (ProgErr.Custom EscrowError.NoSolToWithdraw) :=
  C4_withdraw_at_most_once.2.1 withdrawEnv0 escrow0 inv5W rfl rfl rfl

/-- C5 counterexample: with `max_investment = 10_000_000_000_000`, the second
of two 5_000_000_000_000 deposits from the same investor does NOT fail with
`InvestmentExceedsMaximum`: the cumulative total is exactly 10e12 (not 15e12)
and the check is strict, so the deposit succeeds. -/
theorem C5_counterexample :
    process_deposit_sol depositEnv5 escrow0 5000000000000 ≠
      Except.error (ProgErr.Custom EscrowError.InvestmentExceedsMaximum) := by
  have h : process_deposit_sol depositEnv5 escrow0 5000000000000 =
      Except.ok dep5Ok := rfl
  rw [h]
  intro hc
  exact Except.noConfusion hc

/-- C5 (amended): the maximum-investment check is applied to the investor's
new cumulative total with a strict comparison: the second 5e12 deposit
succeeds because the cumulative total is exactly 10e12 = max_investment, and
a third 5e12 deposit (cumulative 15e12 > 10e12) fails with
`InvestmentExceedsMaximum`, leaving state unchanged. -/
theorem C5_amended :
    process_deposit_sol depositEnv5 escrow0 5000000000000 = Except.ok dep5Ok
    ∧ dep5Ok.new_investor.sol_deposited = 10000000000000
    ∧ process_deposit_sol depositEnv10 escrow0 5000000000000 =
        Except.error (ProgErr.Custom EscrowError.InvestmentExceedsMaximum) :=
  ⟨rfl, rfl, rfl⟩

/-- C6: the WithdrawLocked timing gate is the single global clock
`initialization_timestamp + lock_duration`, independent of the position's own
deposit time: one second before it the call fails with `SolStillLocked`; at
exactly the unlock time the call never fails with `SolStillLocked`. -/
theorem C6_global_unlock_timing (env : WithdrawEnv) (g : GlobalEscrow)
    (inv : InvestorAccount)
    (hs : env.withdrawer_is_signer = true) (hown : env.investor_owner_ok = true)
    (hst : inv.status ≠ InvestorStatus.SolWithdrawn)
    (hauth : env.withdrawer_key = g.recipient_wallet)
    (hpda : env.investor_pda_ok = true)
    (hback : inv.global_escrow_pubkey = env.global_escrow_key)
    (hvda : env.sol_vault_pda_ok = true)
    (hlo : -(2 ^ 63) ≤ g.initialization_timestamp + g.lock_duration)
    (hhi : g.initialization_timestamp + g.lock_duration < 2 ^ 63) :
    (env.now = g.initialization_timestamp + g.lock_duration - 1 →
      process_withdraw_locked_sol env g inv =
        Except.error (ProgErr.Custom EscrowError.SolStillLocked))
    ∧ (env.now = g.initialization_timestamp + g.lock_duration →
      process_withdraw_locked_sol env g inv ≠
        Except.error (ProgErr.Custom EscrowError.SolStillLocked)) := by
  have hwrap : i64_add g.initialization_timestamp g.lock_duration =
      g.initialization_timestamp + g.lock_duration := i64_wrap_eq hlo hhi
  constructor
  · intro hnow
    unfold process_withdraw_locked_sol
    rw [if_neg (by simp [hs]), if_neg (by simp [hown]), if_neg hst,
      if_neg (by simp [hauth]), if_neg (by simp [hpda]),
      if_neg (by simp [hback]), if_neg (by simp [hvda]),
      if_pos (by rw [hwrap, hnow]; omega)]
  · intro hnow
    unfold process_withdraw_locked_sol
    rw [if_neg (by simp [hs]), if_neg (by simp [hown]), if_neg hst,
      if_neg (by simp [hauth]), if_neg (by simp [hpda]),
      if_neg (by simp [hback]), if_neg (by simp [hvda]),
      if_neg (by rw [hwrap, hnow]; omega)]
    by_cases h9 : env.vault_balance < inv.get_locked_sol_amount
    · rw [if_pos h9]
      intro hc
      exact absurd (Except.error.inj hc) (by decide)
    rw [if_neg h9]
    by_cases h10 : env.vault_balance - inv.get_locked_sol_amount <
        env.min_rent_balance
    · rw [if_pos h10]
      intro hc
      exact absurd (Except.error.inj hc) (by decide)
    rw [if_neg h10]
    by_cases h11 : env.recipient_key ≠ g.recipient_wallet
    · rw [if_pos h11]
      intro hc
      exact absurd (Except.error.inj hc) (by decide)
    rw [if_neg h11]
    intro hc
    exact Except.noConfusion hc

/-- C6 witness: with `initialization_timestamp = 0` and `lock_duration = 3600`,
a WithdrawLocked at time 3599 fails with `SolStillLocked` and one at 3600
does not. -/
theorem C6_global_unlock_timing_witness :
    process_withdraw_locked_sol { withdrawEnv0 with now := 3599 } escrow0 inv5 =
      Except.error (ProgErr.Custom EscrowError.SolStillLocked)
    ∧ process_withdraw_locked_sol { withdrawEnv0 with now := 3600 } escrow0 inv5 ≠
      Except.error (ProgErr.Custom EscrowError.SolStillLocked) :=
  ⟨(C6_global_unlock_timing { withdrawEnv0 with now := 3599 } escrow0 inv5
      rfl rfl (by decide) rfl rfl rfl rfl (by decide) (by decide)).1 rfl,
   (C6_global_unlock_timing { withdrawEnv0 with now := 3600 } escrow0 inv5
      rfl rfl (by decide) rfl rfl rfl rfl (by decide) (by decide)).2 rfl⟩

/-- C8: every successful deposit sends exactly `amount / 2` (integer
division) to the beneficiary and `amount - amount / 2` to the fund-lock
vault; the shares sum to the amount, and on odd amounts the extra lamport
goes to the lock share. -/
theorem C8_fifty_fifty_split (env : DepositEnv) (g : GlobalEscrow) (a : Nat)
    (r : DepositOk) (h : process_deposit_sol env g a = Except.ok r) :
    r.sol_to_recipient = a / 2
    ∧ r.sol_to_lock = a - a / 2
    ∧ r.sol_to_recipient + r.sol_to_lock = a
    ∧ (a % 2 = 1 → r.sol_to_lock = r.sol_to_recipient + 1) := by
  obtain ⟨-, -, -, h4, h5, -⟩ := deposit_ok_facts h
  exact ⟨h4, h5, by omega, fun hodd => by omega⟩

/-- C8 witness: the odd deposit of 1_000_001 lamports splits as 500_000 to
the beneficiary and 500_001 to the lock vault. -/
theorem C8_fifty_fifty_split_witness :
    depOddOk.sol_to_recipient + depOddOk.sol_to_lock = 1000001
    ∧ depOddOk.sol_to_lock = depOddOk.sol_to_recipient + 1 :=
  have h := C8_fifty_fifty_split depositEnv0 escrow0 1000001 depOddOk rfl
  ⟨h.2.2.1, h.2.2.2 (by decide)⟩

/-- C9: cumulative-deposit accounting uses unchecked (wrapping) u64
additions: with an existing position of 10e12 and a deposit of
2^64 - 10e12 + 5 lamports, the computed total wraps to 5, so the
`InvestmentExceedsMaximum` check passes and the deposit succeeds although
the true cumulative deposit exceeds both `u64::MAX` and `max_investment`;
`tokens_sold`, `total_sol_deposited` and `tokens_received` are updated with
the same wrapping additions. -/
theorem C9_wrapping_overflow_bypass :
    escrow0.max_sol_investment < inv10.sol_deposited + bigAmount
    ∧ U64_MOD ≤ inv10.sol_deposited + bigAmount
    ∧ u64_add inv10.sol_deposited bigAmount = 5
    ∧ process_deposit_sol depositEnvBig escrow0 bigAmount = Except.ok depBigOk
    ∧ depBigOk.new_investor.sol_deposited = 5
    ∧ depBigOk.new_investor.tokens_received =
        u64_add inv10.tokens_received depBigOk.tokens_to_receive
    ∧ depBigOk.new_escrow.tokens_sold =
        u64_add escrow0.tokens_sold depBigOk.tokens_to_receive
    ∧ depBigOk.new_escrow.total_sol_deposited =
        u64_add escrow0.total_sol_deposited bigAmount :=
  ⟨by decide, by decide, by decide, rfl, rfl, by decide, by decide, by decide⟩

/-- C10: a deposit can succeed while issuing zero tokens: 1_000_000 lamports
(the minimum investment) at the positive oracle price 1 (10^-8 USD) is worth
less than one cent, the pricing calculator returns 0, every precondition
passes, and the deposit commits with the full payment split and taken while
`tokens_received` increases by 0. -/
theorem C10_zero_token_deposit :
    0 < (1000000 : Nat)
    ∧ escrow0.min_sol_investment ≤ 1000000
    ∧ (∃ rd, depositEnvTiny.oracle.round = some rd ∧ 0 < rd.answer)
    ∧ calculate_tokens_for_sol 1000000 1 = Except.ok 0
    ∧ process_deposit_sol depositEnvTiny escrow0 1000000 = Except.ok depTinyOk
    ∧ depTinyOk.tokens_to_receive = 0
    ∧ depTinyOk.sol_to_recipient + depTinyOk.sol_to_lock = 1000000
    ∧ depTinyOk.new_investor.tokens_received = 0
    ∧ depTinyOk.new_escrow.tokens_sold = escrow0.tokens_sold :=
  ⟨by decide, by decide, ⟨_, rfl, by decide⟩, rfl, rfl, rfl, by decide, rfl, rfl⟩

end OndrixEscrow
